import Mathlib

/-!
Verification of the otdb-rs trivia-API client library.

This file gives a shallow embedding of the library's pure logic and proves
properties about it.  The embedding follows the Rust source:

* `src/error.rs` / `src/lib.rs`  — the `HttpError` enum (the two files declare
  the same four-variant enum, `UnsuccessfulRequest` in `error.rs` being named
  `Unsuccessful` in `lib.rs`; we use one Lean type for both),
* `src/options.rs`               — `Options`, `Category`, `Difficulty`, `Kind`,
  their query-parameter rendering (`prepare`) and their serde `Deserialize`
  implementations (which go through the `base64_string` helper),
* `src/model.rs`                 — `ResponseCode`, `deserialize_response_code`,
  `base64_string`, `GlobalDetail` and the hand-rolled map visitor of
  `GlobalDetails::deserialize`,
* `src/request.rs`               — `Request::new`, `Request::prepare`,
  `Request::make_request` (and the variant `make_request` in `lib.rs`),
* `src/client.rs`                — `Client`, its endpoint constructors and the
  token lifecycle (`generate_token`, `reset_token`).

Rust needs a few conventions to be embedded faithfully:

* machine integers are `Nat`/`Int` with explicit range checks where the source
  relies on the machine type's range (`u8` deserialization, for example);
* a `reqwest::RequestBuilder` is modelled as the list of query parameters
  appended so far, in order, each rendered as a pair of strings;
* functions that can panic in Rust (`assert!`, `unreachable!`, `expect`)
  return a result type with an explicit `panicked` constructor, and the
  unchecked `std::mem::transmute` of an integer that is not a valid enum
  discriminant is marked with a dedicated `ub` (undefined behaviour)
  constructor;
* serde deserializers are functions from the relevant already-extracted wire
  value (the JSON string or integer) to a result; serde errors are modelled
  structurally by `DeError` so that "the error reports the offending value"
  is expressible;
* `&mut self` methods become state-passing functions, and an `async` network
  call is split into the pure request construction and a pure handler applied
  to the transport's result, the latter being passed in as a parameter.
-/

/-- The error enum of `src/error.rs` (`HttpError`); `src/lib.rs` declares the
same enum with `UnsuccessfulRequest` spelled `Unsuccessful`. -/
inductive HttpError : Type
  /-- `Request(reqwest::Error)`: transport or body-decoding failure. -/
  | request (msg : String)
  /-- `UnsuccessfulRequest(StatusCode, String)` / `Unsuccessful`. -/
  | unsuccessful (code : Nat) (body : String)
  /-- `InternalServerError(String)`. -/
  | internalServerError (body : String)
  /-- `InvalidOption(String)`: declared in both error enums but constructed
  nowhere in the crate. -/
  | invalidOption (msg : String)
deriving DecidableEq, Repr

/-- A structural model of a serde decode error. -/
inductive DeError : Type
  /-- `serde::de::Error::custom`: base64 or UTF-8 failure messages. -/
  | custom (msg : String)
  /-- `serde::de::Error::invalid_value(Unexpected, expected)`: carries the
  offending integer and the expectation string. -/
  | invalidValue (n : Int) (expected : String)
deriving DecidableEq, Repr

/-- Result of running a Rust deserializer, with explicit constructors for a
panic (`unreachable!`, `expect`) and for undefined behaviour (a `transmute`
to an invalid enum discriminant). -/
inductive DeResult (α : Type) : Type
  | ok (a : α)
  | err (e : DeError)
  | panicked (msg : String)
  | ub (msg : String)
deriving DecidableEq, Repr

namespace DeResult

def map {α β : Type} (f : α → β) : DeResult α → DeResult β
  | .ok a => .ok (f a)
  | .err e => .err e
  | .panicked m => .panicked m
  | .ub m => .ub m

def isOk {α : Type} : DeResult α → Bool
  | .ok _ => true
  | _ => false

def isErr {α : Type} : DeResult α → Bool
  | .err _ => true
  | _ => false

def isPanicked {α : Type} : DeResult α → Bool
  | .panicked _ => true
  | _ => false

def isUb {α : Type} : DeResult α → Bool
  | .ub _ => true
  | _ => false

end DeResult

/-- Result of calling a Rust method that returns normally or panics.  The
`err` constructor is the error channel the specification attributes to the
option setters; no embedded code path produces it (the Rust setters' signature
`&mut Self → &mut Self` has no error channel at all), it is present so that
the specified behaviour is stateable and refutable. -/
inductive CallResult (α : Type) : Type
  | ok (a : α)
  | err (e : HttpError)
  | panicked (msg : String)
deriving DecidableEq, Repr

namespace CallResult

def isOk {α : Type} : CallResult α → Bool
  | .ok _ => true
  | _ => false

def isPanicked {α : Type} : CallResult α → Bool
  | .panicked _ => true
  | _ => false

/-- Does the call fail with an `HttpError::InvalidOption` error value? -/
def isInvalidOptionErr {α : Type} : CallResult α → Bool
  | .err (.invalidOption _) => true
  | _ => false

end CallResult

/-! ### UTF-8 (Rust `String::from_utf8`, and encoding for building wire data) -/

/-- UTF-8 encoding of one unicode scalar value, as `str::as_bytes` yields. -/
def utf8EncodeChar (c : Char) : List Nat :=
  let n := c.toNat
  if n < 0x80 then [n]
  else if n < 0x800 then [0xC0 + n / 64, 0x80 + n % 64]
  else if n < 0x10000 then
    [0xE0 + n / 4096, 0x80 + n / 64 % 64, 0x80 + n % 64]
  else
    [0xF0 + n / 262144, 0x80 + n / 4096 % 64, 0x80 + n / 64 % 64, 0x80 + n % 64]

/-- The UTF-8 bytes of a string. -/
def utf8Encode (s : List Char) : List Nat :=
  s.flatMap utf8EncodeChar

/-- Is `b` a UTF-8 continuation byte? -/
def utf8Cont (b : Nat) : Prop := 0x80 ≤ b ∧ b ≤ 0xBF

instance (b : Nat) : Decidable (utf8Cont b) := by unfold utf8Cont; infer_instance

/-- UTF-8 validation and decoding, following `String::from_utf8`: rejects
truncated sequences, stray continuation bytes, overlong encodings, surrogate
code points and values above `0x10FFFF`. -/
def utf8Decode : List Nat → Option (List Char)
  | [] => some []
  | b1 :: rest =>
    if b1 ≤ 0x7F then
      match utf8Decode rest with
      | some cs => some (Char.ofNat b1 :: cs)
      | none => none
    else if 0xC2 ≤ b1 ∧ b1 ≤ 0xDF then
      match rest with
      | b2 :: rest2 =>
        if utf8Cont b2 then
          match utf8Decode rest2 with
          | some cs => some (Char.ofNat ((b1 - 0xC0) * 64 + (b2 - 0x80)) :: cs)
          | none => none
        else none
      | [] => none
    else if 0xE0 ≤ b1 ∧ b1 ≤ 0xEF then
      match rest with
      | b2 :: b3 :: rest3 =>
        if ((b1 = 0xE0 ∧ 0xA0 ≤ b2 ∧ b2 ≤ 0xBF) ∨
            (0xE1 ≤ b1 ∧ b1 ≤ 0xEC ∧ utf8Cont b2) ∨
            (b1 = 0xED ∧ 0x80 ≤ b2 ∧ b2 ≤ 0x9F) ∨
            (0xEE ≤ b1 ∧ utf8Cont b2)) ∧ utf8Cont b3 then
          match utf8Decode rest3 with
          | some cs =>
            some (Char.ofNat ((b1 - 0xE0) * 4096 + (b2 - 0x80) * 64 + (b3 - 0x80)) :: cs)
          | none => none
        else none
      | _ => none
    else if 0xF0 ≤ b1 ∧ b1 ≤ 0xF4 then
      match rest with
      | b2 :: b3 :: b4 :: rest4 =>
        if ((b1 = 0xF0 ∧ 0x90 ≤ b2 ∧ b2 ≤ 0xBF) ∨
            (0xF1 ≤ b1 ∧ b1 ≤ 0xF3 ∧ utf8Cont b2) ∨
            (b1 = 0xF4 ∧ 0x80 ≤ b2 ∧ b2 ≤ 0x8F)) ∧ utf8Cont b3 ∧ utf8Cont b4 then
          match utf8Decode rest4 with
          | some cs =>
            some (Char.ofNat ((b1 - 0xF0) * 262144 + (b2 - 0x80) * 4096 +
                              (b3 - 0x80) * 64 + (b4 - 0x80)) :: cs)
          | none => none
        else none
      | _ => none
    else none

/-! ### Base64 (the `base64` crate's `general_purpose::STANDARD` engine) -/

/-- The standard base64 alphabet. -/
def b64Alphabet : List Char :=
  "ABCDEFGHIJKLMNOPQRSTUVWXYZabcdefghijklmnopqrstuvwxyz0123456789+/".data

/-- The 6-bit value of a base64 symbol, `none` for invalid symbols
(including the padding character). -/
def b64Val (c : Char) : Option Nat :=
  if 'A' ≤ c ∧ c ≤ 'Z' then some (c.toNat - 65)
  else if 'a' ≤ c ∧ c ≤ 'z' then some (c.toNat - 97 + 26)
  else if '0' ≤ c ∧ c ≤ '9' then some (c.toNat - 48 + 52)
  else if c = '+' then some 62
  else if c = '/' then some 63
  else none

/-- The base64 symbol for a 6-bit value. -/
def b64Chr (n : Nat) : Char := b64Alphabet.getD n '?'

/-- Padded base64 encoding of a byte sequence (`STANDARD` engine encode). -/
def base64EncodeBytes : List Nat → List Char
  | [] => []
  | [b1] => [b64Chr (b1 / 4), b64Chr (b1 % 4 * 16), '=', '=']
  | [b1, b2] => [b64Chr (b1 / 4), b64Chr (b1 % 4 * 16 + b2 / 16), b64Chr (b2 % 16 * 4), '=']
  | b1 :: b2 :: b3 :: rest =>
    b64Chr (b1 / 4) :: b64Chr (b1 % 4 * 16 + b2 / 16) ::
    b64Chr (b2 % 16 * 4 + b3 / 64) :: b64Chr (b3 % 64) :: base64EncodeBytes rest

/-- Base64 of the UTF-8 bytes of a string, as a string; used to build the
wire form the OpenTDB API sends (`encode=base64`). -/
def base64Encode (s : String) : String :=
  String.mk (base64EncodeBytes (utf8Encode s.data))

/-- Base64 decoding (`STANDARD` engine decode): canonical padding required
(length a multiple of four, `=` only at the end) and non-zero trailing bits
rejected, matching the crate's default `GeneralPurposeConfig`. -/
def base64DecodeChars : List Char → Option (List Nat)
  | [] => some []
  | [c1, c2, '=', '='] =>
    match b64Val c1, b64Val c2 with
    | some v1, some v2 => if v2 % 16 = 0 then some [v1 * 4 + v2 / 16] else none
    | _, _ => none
  | [c1, c2, c3, '='] =>
    match b64Val c1, b64Val c2, b64Val c3 with
    | some v1, some v2, some v3 =>
      if v3 % 4 = 0 then some [v1 * 4 + v2 / 16, v2 % 16 * 16 + v3 / 4] else none
    | _, _, _ => none
  | c1 :: c2 :: c3 :: c4 :: rest =>
    match b64Val c1, b64Val c2, b64Val c3, b64Val c4 with
    | some v1, some v2, some v3, some v4 =>
      match base64DecodeChars rest with
      | some bs =>
        some ((v1 * 4 + v2 / 16) :: (v2 % 16 * 16 + v3 / 4) :: (v3 % 4 * 64 + v4) :: bs)
      | none => none
    | _, _, _, _ => none
  | _ => none

/-- The `base64_string` helper of `src/model.rs`: base64-decode the wire
string, then validate the bytes as UTF-8; each failure is a serde custom
error (`map_err(serde::de::Error::custom)`). -/
def base64_string (wire : String) : DeResult String :=
  match base64DecodeChars wire.data with
  | none => .err (.custom "base64 decode error")
  | some bytes =>
    match utf8Decode bytes with
    | none => .err (.custom "invalid utf-8 sequence")
    | some cs => .ok (String.mk cs)

/-! ### The option enums of `src/options.rs` -/

/-- One appended URL query parameter; a `reqwest::RequestBuilder` is modelled
as the ordered list of parameters appended so far. -/
abbrev Param := String × String

/-- `Kind` (`src/options.rs`). -/
inductive Kind : Type
  | Any
  | TrueOrFalse
  | MultipleChoice
deriving DecidableEq, Repr

/-- `Kind::prepare`: append the `type` parameter, or nothing for `Any`. -/
def Kind.prepare (k : Kind) (builder : List Param) : List Param :=
  match k with
  | .TrueOrFalse => builder ++ [("type", "boolean")]
  | .MultipleChoice => builder ++ [("type", "multiple")]
  | .Any => builder

/-- `Kind`'s `Deserialize` impl: `base64_string` then a match whose default
arm is `unreachable!()`. -/
def Kind.deserialize (wire : String) : DeResult Kind :=
  match base64_string wire with
  | .ok s =>
    if s = "boolean" then .ok Kind.TrueOrFalse
    else if s = "multiple" then .ok Kind.MultipleChoice
    else .panicked "internal error: entered unreachable code"
  | .err e => .err e
  | .panicked m => .panicked m
  | .ub m => .ub m

/-- `Difficulty` (`src/options.rs`). -/
inductive Difficulty : Type
  | Any
  | Easy
  | Medium
  | Hard
deriving DecidableEq, Repr

/-- `Difficulty::prepare`: append the `difficulty` parameter, or nothing for
`Any`. -/
def Difficulty.prepare (d : Difficulty) (builder : List Param) : List Param :=
  match d with
  | .Easy => builder ++ [("difficulty", "easy")]
  | .Medium => builder ++ [("difficulty", "medium")]
  | .Hard => builder ++ [("difficulty", "hard")]
  | .Any => builder

/-- `Difficulty`'s `Deserialize` impl: `base64_string` then a match whose
default arm is `unreachable!()`. -/
def Difficulty.deserialize (wire : String) : DeResult Difficulty :=
  match base64_string wire with
  | .ok s =>
    if s = "easy" then .ok Difficulty.Easy
    else if s = "medium" then .ok Difficulty.Medium
    else if s = "hard" then .ok Difficulty.Hard
    else .panicked "internal error: entered unreachable code"
  | .err e => .err e
  | .panicked m => .panicked m
  | .ub m => .ub m

/-- `Category` (`src/options.rs`): `repr(u8)` with discriminants 0 and 9–32. -/
inductive Category : Type
  | Any
  | GeneralKnowledge
  | Books
  | Film
  | Music
  | MusicalAndTheatres
  | Television
  | VideoGames
  | BoardGames
  | ScienceAndNature
  | Computers
  | Mathematics
  | Mythology
  | Sports
  | Geography
  | History
  | Politics
  | Art
  | Celebrities
  | Animals
  | Vehicles
  | Comics
  | Gadgets
  | JapaneseAnimeAndManga
  | CartoonAndAnimations
deriving DecidableEq, Repr

/-- The `repr(u8)` discriminant of each `Category` variant (`self as u8`). -/
def Category.id : Category → Nat
  | .Any => 0
  | .GeneralKnowledge => 9
  | .Books => 10
  | .Film => 11
  | .Music => 12
  | .MusicalAndTheatres => 13
  | .Television => 14
  | .VideoGames => 15
  | .BoardGames => 16
  | .ScienceAndNature => 17
  | .Computers => 18
  | .Mathematics => 19
  | .Mythology => 20
  | .Sports => 21
  | .Geography => 22
  | .History => 23
  | .Politics => 24
  | .Art => 25
  | .Celebrities => 26
  | .Animals => 27
  | .Vehicles => 28
  | .Comics => 29
  | .Gadgets => 30
  | .JapaneseAnimeAndManga => 31
  | .CartoonAndAnimations => 32

/-- The domain of `std::mem::transmute::<u8, Category>`: the variant with
discriminant `n`, or `none` when `n` is not a valid discriminant (in which
case the Rust transmute is undefined behaviour). -/
def Category.ofId? (n : Nat) : Option Category :=
  match n with
  | 0 => some .Any
  | 9 => some .GeneralKnowledge
  | 10 => some .Books
  | 11 => some .Film
  | 12 => some .Music
  | 13 => some .MusicalAndTheatres
  | 14 => some .Television
  | 15 => some .VideoGames
  | 16 => some .BoardGames
  | 17 => some .ScienceAndNature
  | 18 => some .Computers
  | 19 => some .Mathematics
  | 20 => some .Mythology
  | 21 => some .Sports
  | 22 => some .Geography
  | 23 => some .History
  | 24 => some .Politics
  | 25 => some .Art
  | 26 => some .Celebrities
  | 27 => some .Animals
  | 28 => some .Vehicles
  | 29 => some .Comics
  | 30 => some .Gadgets
  | 31 => some .JapaneseAnimeAndManga
  | 32 => some .CartoonAndAnimations
  | _ => none

/-- The derived `Debug` rendering of a `Category` variant
(`format!("{category:?}")`): the variant's identifier. -/
def Category.debugName : Category → String
  | .Any => "Any"
  | .GeneralKnowledge => "GeneralKnowledge"
  | .Books => "Books"
  | .Film => "Film"
  | .Music => "Music"
  | .MusicalAndTheatres => "MusicalAndTheatres"
  | .Television => "Television"
  | .VideoGames => "VideoGames"
  | .BoardGames => "BoardGames"
  | .ScienceAndNature => "ScienceAndNature"
  | .Computers => "Computers"
  | .Mathematics => "Mathematics"
  | .Mythology => "Mythology"
  | .Sports => "Sports"
  | .Geography => "Geography"
  | .History => "History"
  | .Politics => "Politics"
  | .Art => "Art"
  | .Celebrities => "Celebrities"
  | .Animals => "Animals"
  | .Vehicles => "Vehicles"
  | .Comics => "Comics"
  | .Gadgets => "Gadgets"
  | .JapaneseAnimeAndManga => "JapaneseAnimeAndManga"
  | .CartoonAndAnimations => "CartoonAndAnimations"

/-- `Category::prepare`: `let id = self as u8; if id == 0 { builder } else
{ builder.query(&[("category", id)]) }`. -/
def Category.prepare (c : Category) (builder : List Param) : List Param :=
  let id := c.id
  if id = 0 then builder else builder ++ [("category", toString id)]

/-- Rust `str::replace` for a single-character pattern: replace every
occurrence of `pat` by `rep`, left to right. -/
def replaceChar (pat : Char) (rep : List Char) : List Char → List Char
  | [] => []
  | c :: rest =>
    if c = pat then rep ++ replaceChar pat rep rest
    else c :: replaceChar pat rep rest

/-- Rust `str::rsplit_once` for a single-character pattern: split at the last
occurrence of `sep`, `none` when `sep` does not occur. -/
def rsplitOnce (sep : Char) : List Char → Option (List Char × List Char)
  | [] => none
  | c :: rest =>
    match rsplitOnce sep rest with
    | some (pre, post) => some (c :: pre, post)
    | none => if c = sep then some ([], rest) else none

/-- The categories the decoding loop of `Category`'s `Deserialize` impl walks:
`transmute(i)` for `i` in `9..=32`, in order. -/
def categoryLoopList : List Category :=
  (List.range' 9 24).filterMap Category.ofId?

/-- The string normalization performed by `Category`'s `Deserialize` impl
before matching: strip spaces, keep only what follows the last `:` (the
`rsplit_once` result is unwrapped with `expect("Invalid option")`), and
replace `&` by `And`. -/
def categoryNormalize (s : List Char) : DeResult (List Char) :=
  let cat := replaceChar ' ' [] s
  match (if cat.contains ':' then
           match rsplitOnce ':' cat with
           | some (_, rest) => DeResult.ok rest
           | none => DeResult.panicked "Invalid option"
         else DeResult.ok cat) with
  | .ok cat1 =>
    .ok (if cat1.contains '&' then replaceChar '&' ('A' :: 'n' :: 'd' :: []) cat1 else cat1)
  | r => r

/-- The matching loop of `Category`'s `Deserialize` impl applied to a
normalized name: the first variant of `9..=32` whose `Debug` rendering equals
the name, falling back to `Category::Any`. -/
def categoryLookup (cat : List Char) : Category :=
  match categoryLoopList.find? (fun c => c.debugName.data == cat) with
  | some c => c
  | none => Category.Any

/-- `Category`'s `Deserialize` impl: `base64_string`, normalization, then the
matching loop with fallback `Ok(Category::Any)`. -/
def Category.deserialize (wire : String) : DeResult Category :=
  match base64_string wire with
  | .ok s => (categoryNormalize s.data).map categoryLookup
  | .err e => .err e
  | .panicked m => .panicked m
  | .ub m => .ub m

/-! ### `Options` (`src/options.rs`) and its setters -/

/-- The `Options` builder of `src/options.rs` (field names as in the source;
`question_number` is `Option<u8>`). -/
structure Options : Type where
  question_number : Option Nat
  category : Option Category
  difficulty : Option Difficulty
  kind : Option Kind
deriving DecidableEq, Repr

/-- The derived `Default` for `Options`: every field `None`. -/
def Options.mkDefault : Options := ⟨none, none, none, none⟩

/-- The setter `Options::question_number` (reached through `Deref` from the
request types): `assert!(number <= 50)` then record the value.  The assert
panics — there is no error return. -/
def Options.set_question_number (o : Options) (number : Nat) : CallResult Options :=
  if number ≤ 50 then .ok { o with question_number := some number }
  else .panicked "assertion failed: number <= 50"

/-- The setter `Options::category`: record the value, last write wins. -/
def Options.set_category (o : Options) (c : Category) : Options :=
  { o with category := some c }

/-- The setter `Options::difficulty`. -/
def Options.set_difficulty (o : Options) (d : Difficulty) : Options :=
  { o with difficulty := some d }

/-- The setter `Options::kind`. -/
def Options.set_kind (o : Options) (k : Kind) : Options :=
  { o with kind := some k }

/-- `Options::prepare`: `Option::take` each field in order (leaving it
`None`), appending the corresponding query parameter when it was set.
Returns the mutated `Options` together with the extended builder. -/
def Options.prepare (o : Options) (builder : List Param) : Options × List Param :=
  let v1 := o.question_number
  let o1 : Options := { o with question_number := none }
  let b1 := match v1 with
    | some n => builder ++ [("amount", toString n)]
    | none => builder
  let v2 := o1.category
  let o2 : Options := { o1 with category := none }
  let b2 := match v2 with
    | some c => c.prepare b1
    | none => b1
  let v3 := o2.difficulty
  let o3 : Options := { o2 with difficulty := none }
  let b3 := match v3 with
    | some d => d.prepare b2
    | none => b2
  let v4 := o3.kind
  let o4 : Options := { o3 with kind := none }
  let b4 := match v4 with
    | some k => k.prepare b3
    | none => b3
  (o4, b4)

/-! ### `Request` (`src/request.rs`) and `Client` (`src/client.rs`) -/

/-- The `Request` of `src/request.rs`, reduced to its logical fields: the
`reqwest::Client` handle carries no request-building logic and the
`PhantomData` marker is a type tag, so neither is modelled. -/
structure Request : Type where
  token : Option String
  endpoint : String
  options : Options
deriving DecidableEq, Repr

/-- `Request::new`: default options, then `this.question_number(10)` (which
runs the asserting setter through `DerefMut`). -/
def Request.new (token : Option String) (endpoint : String) : CallResult Request :=
  match Options.mkDefault.set_question_number 10 with
  | .ok o => .ok { token := token, endpoint := endpoint, options := o }
  | .err e => .err e
  | .panicked m => .panicked m

/-- `Request::prepare`: append the `token` parameter when a token is present,
then apply the options (`self.options.prepare(request)`). -/
def Request.prepare (r : Request) (builder : List Param) : Request × List Param :=
  let b := match r.token with
    | some t => builder ++ [("token", t)]
    | none => builder
  let (o, b2) := r.options.prepare b
  ({ r with options := o }, b2)

/-- The `Client` of `src/client.rs`, reduced to its logical field: the
`reqwest::Client` transport handle holds no library logic. -/
structure Client : Type where
  token : Option String
deriving DecidableEq, Repr

/-- `Client::new` (token starts out absent). -/
def Client.new : Client := ⟨none⟩

/-- `Client::set_token`. -/
def Client.set_token (c : Client) (t : String) : Client := { c with token := some t }

/-- `Client::get_token`. -/
def Client.get_token (c : Client) : Option String := c.token

/-- `Client::trivia`: a request to the trivia endpoint carrying the client's
token. -/
def Client.trivia (c : Client) : CallResult Request :=
  Request.new c.token "https://opentdb.com/api.php?encode=base64"

/-- `Client::category_details`: a request to the count endpoint; the token
argument is `&None`. -/
def Client.category_details (_c : Client) (category : Category) : CallResult Request :=
  Request.new none ("https://opentdb.com/api_count.php?category=" ++ toString category.id)

/-- `Client::global_details`: a request to the global count endpoint; the
token argument is `&None`. -/
def Client.global_details (_c : Client) : CallResult Request :=
  Request.new none "https://opentdb.com/api_count_global.php"

/-- `Client::new_request`: a request to a caller-chosen endpoint carrying the
client's token. -/
def Client.new_request (c : Client) (endpoint : String) : CallResult Request :=
  Request.new c.token endpoint

/-- The request `Client::generate_token` constructs and dispatches. -/
def Client.generateTokenRequest (c : Client) : CallResult Request :=
  Request.new c.token "https://opentdb.com/api_token.php?command=request"

/-- The request the token-present branch of `Client::reset_token` constructs
and dispatches. -/
def Client.resetTokenRequest (c : Client) : CallResult Request :=
  Request.new c.token "https://opentdb.com/api_token.php?command=reset"

/-- `TokenRequest` (`src/model.rs`): the token-issuance response body. -/
structure TokenRequest : Type where
  token : String
deriving DecidableEq, Repr

/-- `ResetToken` (`src/model.rs`): the token-reset response body. -/
structure ResetToken : Type where
  token : String
deriving DecidableEq, Repr

/-- `Client::generate_token` (an `&self` method: the client state cannot
change, which the unchanged first component makes explicit).  The dispatched
request's outcome is the `resp` parameter; the method returns
`resp?.token`. -/
def Client.generate_token (c : Client) (resp : Except HttpError TokenRequest) :
    Client × Except HttpError String :=
  (c, resp.map TokenRequest.token)

/-- `Client::reset_token` (`&mut self`): with a token present, dispatch the
reset request and return `resp?.token` leaving the client untouched; with no
token, run `generate_token`, and on success `set_token` the result before
returning it.  `resetResp` and `genResp` are the outcomes of the two possible
dispatches. -/
def Client.reset_token (c : Client) (resetResp : Except HttpError ResetToken)
    (genResp : Except HttpError TokenRequest) : Client × Except HttpError String :=
  match c.token with
  | some _ => (c, resetResp.map ResetToken.token)
  | none =>
    match (c.generate_token genResp).2 with
    | .ok t => (c.set_token t, .ok t)
    | .error e => (c, .error e)

/-! ### Response models and decoding (`src/model.rs`) -/

/-- `ResponseCode` (`src/model.rs`). -/
inductive ResponseCode : Type
  | Success
  | NoResults
  | InvalidParameter
  | TokenNotFound
  | TokenEmpty
deriving DecidableEq, Repr

/-- `deserialize_response_code`: `u8::deserialize` (an integer outside
`0..=255` is a serde error naming it — modelled with expectation `"u8"`),
then the match with arms `0..=4` and a default arm raising
`invalid_value(Unexpected::Unsigned(e), &"A number contained between 0 and
4")`. -/
def deserialize_response_code (n : Int) : DeResult ResponseCode :=
  if n < 0 ∨ 255 < n then .err (.invalidValue n "u8")
  else if n = 0 then .ok .Success
  else if n = 1 then .ok .NoResults
  else if n = 2 then .ok .InvalidParameter
  else if n = 3 then .ok .TokenNotFound
  else if n = 4 then .ok .TokenEmpty
  else .err (.invalidValue n "A number contained between 0 and 4")

/-- `GlobalDetail` (`src/model.rs`). -/
structure GlobalDetail : Type where
  total_questions : Nat
  pending_questions : Nat
  verified_questions : Nat
  rejected_questions : Nat
deriving DecidableEq, Repr

/-- `HashMap::insert` on an association-list model of
`HashMap<Category, GlobalDetail>`: replace the value when the key is present,
otherwise add the entry. -/
def insertAssoc (m : List (Category × GlobalDetail)) (k : Category) (v : GlobalDetail) :
    List (Category × GlobalDetail) :=
  if m.any (fun p => p.1 == k) then
    m.map (fun p => if p.1 == k then (k, v) else p)
  else m ++ [(k, v)]

/-- Association-list lookup for the typed category map. -/
def lookupAssoc (m : List (Category × GlobalDetail)) (k : Category) : Option GlobalDetail :=
  (m.find? (fun p => p.1 == k)).map Prod.snd

/-- The `while let Some((k, v)) = access.next_entry()?` loop of
`MapVisitor::visit_map` in `GlobalDetails::deserialize`.  Each wire key is a
decimal string deserialized to `u8` (a number above 255 is a serde error
naming it), then passed — unchecked — to
`std::mem::transmute::<u8, Category>`: a `u8` that is no `Category`
discriminant makes the transmute undefined behaviour (`ub`). -/
def visitCategoryEntries : List (Nat × GlobalDetail) → List (Category × GlobalDetail) →
    DeResult (List (Category × GlobalDetail))
  | [], map => .ok map
  | (k, v) :: rest, map =>
    if 255 < k then .err (.invalidValue k "u8")
    else
      match Category.ofId? k with
      | some category => visitCategoryEntries rest (insertAssoc map category v)
      | none => .ub "transmute::<u8, Category> of an invalid discriminant"

/-- The `categories` map decoding of `GlobalDetails::deserialize`
(`CategoryMap`'s `Deserialize` impl): run the visitor loop on the wire
entries starting from an empty map. -/
def CategoryMap.deserialize (entries : List (Nat × GlobalDetail)) :
    DeResult (List (Category × GlobalDetail)) :=
  visitCategoryEntries entries []

/-! ### Status classification (`src/lib.rs` and `src/request.rs`) -/

/-- `make_request` in `src/lib.rs`.  The transport hands back a status code
and a body; `decodeJson` stands for `response.json::<T>()`, whose failure is
a `reqwest::Error` converted by `?` into `HttpError::Request`.  The source
matches `c if c >= 500` first, then `200`, then the catch-all. -/
def make_request {α : Type} (decodeJson : String → Option α) (status : Nat)
    (body : String) : Except HttpError α :=
  if 500 ≤ status then .error (.internalServerError body)
  else if status = 200 then
    match decodeJson body with
    | some v => .ok v
    | none => .error (.request "error decoding response body")
  else .error (.unsuccessful status body)

/-- `Request::make_request` in `src/request.rs`: same classification with the
`200` arm first (`200`, then `c if c >= 500`, then the catch-all building
`UnsuccessfulRequest`). -/
def Request.make_request {α : Type} (decodeJson : String → Option α) (status : Nat)
    (body : String) : Except HttpError α :=
  if status = 200 then
    match decodeJson body with
    | some v => .ok v
    | none => .error (.request "error decoding response body")
  else if 500 ≤ status then .error (.internalServerError body)
  else .error (.unsuccessful status body)

/-! ### Claims -/

/-- C1: every dispatched request classifies the HTTP status exactly as:
status 200 with a body that decodes as the declared response type yields
the decoded value; any status ≥ 500 yields `InternalServerError` carrying
the body text; any other status yields `Unsuccessful` carrying the status
code and the body text.  Both dispatch paths (`make_request` in `src/lib.rs`
and `Request::make_request` in `src/request.rs`) agree. -/
theorem dispatch_status_classification {α : Type} (decodeJson : String → Option α)
    (status : Nat) (body : String) :
    Request.make_request decodeJson status body = make_request decodeJson status body ∧
    (status = 200 → ∀ v : α, decodeJson body = some v →
      make_request decodeJson status body = Except.ok v) ∧
    (500 ≤ status → make_request decodeJson status body =
      Except.error (HttpError.internalServerError body)) ∧
    (status ≠ 200 → status < 500 → make_request decodeJson status body =
      Except.error (HttpError.unsuccessful status body)) := by
  refine ⟨?_, ?_, ?_, ?_⟩
  · unfold make_request Request.make_request
    split_ifs <;> first | rfl | omega
  · intro h v hv
    unfold make_request
    rw [if_neg (by omega), if_pos h, hv]
  · intro h
    unfold make_request
    rw [if_pos h]
  · intro h1 h2
    unfold make_request
    rw [if_neg (by omega), if_neg h1]

/-- A concrete JSON decoder for the witness: accepts exactly the body `"7"`. -/
def decodeSeven (s : String) : Option Nat := if s = "7" then some 7 else none

/-- Witness for C1: the three status classes at concrete inputs, including the
spec's own examples (503 + "maintenance", 429 + "slow down"). -/
theorem dispatch_status_classification_witness :
    make_request decodeSeven 200 "7" = Except.ok 7 ∧
    make_request decodeSeven 503 "maintenance" =
      Except.error (HttpError.internalServerError "maintenance") ∧
    make_request decodeSeven 429 "slow down" =
      Except.error (HttpError.unsuccessful 429 "slow down") :=
  ⟨(dispatch_status_classification decodeSeven 200 "7").2.1 rfl 7 (by decide),
   (dispatch_status_classification decodeSeven 503 "maintenance").2.2.1 (by omega),
   (dispatch_status_classification decodeSeven 429 "slow down").2.2.2 (by decide) (by omega)⟩

/-- C2 counterexample: at 51 the question-count setter panics through
`assert!(number <= 50)`; it does not return an `InvalidOption` (or any other)
error value. -/
theorem question_number_51_panics_not_invalid_option :
    (Options.mkDefault.set_question_number 51).isPanicked = true ∧
    (Options.mkDefault.set_question_number 51).isInvalidOptionErr = false := by
  decide

/-- C2 (amended): the question-count setter accepts every value in [0, 50],
recording it, and panics (assertion failure) — synchronously, before any
network I/O, the setter being a pure builder method — for every value
above 50. -/
theorem question_number_setter_bounds (o : Options) (n : Nat) :
    (n ≤ 50 → o.set_question_number n = .ok { o with question_number := some n }) ∧
    (50 < n → o.set_question_number n = .panicked "assertion failed: number <= 50") := by
  constructor
  · intro h
    unfold Options.set_question_number
    rw [if_pos h]
  · intro h
    unfold Options.set_question_number
    rw [if_neg (by omega)]

/-- Witness for C2: 50 is recorded, 51 panics. -/
theorem question_number_setter_bounds_witness :
    Options.mkDefault.set_question_number 50 =
      .ok { Options.mkDefault with question_number := some 50 } ∧
    Options.mkDefault.set_question_number 51 =
      .panicked "assertion failed: number <= 50" :=
  ⟨(question_number_setter_bounds Options.mkDefault 50).1 (by omega),
   (question_number_setter_bounds Options.mkDefault 51).2 (by omega)⟩

/-- C6: applying an `Options` to a request builder consumes every set option:
after one `prepare` the options record reports no option set (every field is
`None`), and a second `prepare` of the same record appends no parameter,
whatever the four fields started as. -/
theorem options_prepare_consumes_all (o : Options) (b : List Param) :
    (o.prepare b).1 = Options.mkDefault ∧
    ((o.prepare b).1.prepare (o.prepare b).2).2 = (o.prepare b).2 := by
  obtain ⟨q, c, d, k⟩ := o
  exact ⟨rfl, rfl⟩

/-- C8: rendering options omits the query parameter entirely for every `Any`
variant: `Category::Any` (discriminant 0) appends no `category` parameter
while every other variant (discriminants 9–32) appends `category=<id>`;
`Difficulty::Any` appends no `difficulty` parameter while the others append
`difficulty=easy|medium|hard`; `Kind::Any` appends no `type` parameter while
the others append `type=boolean|multiple`. -/
theorem any_variants_render_no_parameter (b : List Param) :
    (Category.Any.id = 0 ∧
     (∀ c : Category, c.id = 0 ∨ (9 ≤ c.id ∧ c.id ≤ 32)) ∧
     Category.Any.prepare b = b ∧
     (∀ c : Category, 9 ≤ c.id → c.prepare b = b ++ [("category", toString c.id)])) ∧
    (Difficulty.Any.prepare b = b ∧
     Difficulty.Easy.prepare b = b ++ [("difficulty", "easy")] ∧
     Difficulty.Medium.prepare b = b ++ [("difficulty", "medium")] ∧
     Difficulty.Hard.prepare b = b ++ [("difficulty", "hard")]) ∧
    (Kind.Any.prepare b = b ∧
     Kind.TrueOrFalse.prepare b = b ++ [("type", "boolean")] ∧
     Kind.MultipleChoice.prepare b = b ++ [("type", "multiple")]) := by
  refine ⟨⟨rfl, by intro c; cases c <;> decide, rfl, ?_⟩, ⟨rfl, rfl, rfl, rfl⟩, ⟨rfl, rfl, rfl⟩⟩
  intro c h
  cases c <;> first | exact absurd h (by decide) | rfl

/-- Witness for C8: a non-`Any` category renders its numeric id. -/
theorem any_variants_render_no_parameter_witness :
    Category.GeneralKnowledge.prepare [] = [("category", "9")] :=
  (any_variants_render_no_parameter []).1.2.2.2 Category.GeneralKnowledge (by decide)

/-- C9: decoding the `response_code` field succeeds exactly for the integers
0–4, mapping them to `Success`, `NoResults`, `InvalidParameter`,
`TokenNotFound`, `TokenEmpty`, and every integer outside 0–4 is a decode
error that reports the offending value (5–255 through the explicit
`invalid_value` arm, everything else through `u8` deserialization). -/
theorem response_code_decode_range :
    (deserialize_response_code 0 = .ok .Success ∧
     deserialize_response_code 1 = .ok .NoResults ∧
     deserialize_response_code 2 = .ok .InvalidParameter ∧
     deserialize_response_code 3 = .ok .TokenNotFound ∧
     deserialize_response_code 4 = .ok .TokenEmpty) ∧
    (∀ n : Int, 4 < n → n ≤ 255 →
      deserialize_response_code n =
        .err (.invalidValue n "A number contained between 0 and 4")) ∧
    (∀ n : Int, n < 0 ∨ 255 < n →
      deserialize_response_code n = .err (.invalidValue n "u8")) ∧
    (∀ n : Int, (deserialize_response_code n).isOk = true → 0 ≤ n ∧ n ≤ 4) := by
  refine ⟨by decide, ?_, ?_, ?_⟩
  · intro n h1 h2
    unfold deserialize_response_code
    rw [if_neg (by omega), if_neg (by omega), if_neg (by omega), if_neg (by omega),
        if_neg (by omega), if_neg (by omega)]
  · intro n h
    unfold deserialize_response_code
    rw [if_pos h]
  · intro n h
    unfold deserialize_response_code at h
    split_ifs at h <;> simp [DeResult.isOk] at h <;> omega

/-- Witness for C9: the spec's own example, response code 5, is a decode
error naming 5; 300 fails `u8` decoding naming 300. -/
theorem response_code_decode_range_witness :
    deserialize_response_code 5 =
      .err (.invalidValue 5 "A number contained between 0 and 4") ∧
    deserialize_response_code 300 = .err (.invalidValue 300 "u8") :=
  ⟨response_code_decode_range.2.1 5 (by omega) (by omega),
   response_code_decode_range.2.2.1 300 (Or.inr (by omega))⟩

/-- C10: every `Request` constructed through the `Client` — the trivia
endpoint, `category_details`, `global_details`, `new_request`, and the
token-generation and token-reset requests — is initialized with question
count 10 (`Request::new` runs `question_number(10)`), so preparing such a
request appends `amount=10` to the URL of every endpoint, the unauthenticated
statistics and token endpoints included. -/
theorem every_request_defaults_amount_ten (c : Client) (cat : Category)
    (ep t : String) (b : List Param) :
    c.trivia = .ok ⟨c.token, "https://opentdb.com/api.php?encode=base64",
      ⟨some 10, none, none, none⟩⟩ ∧
    c.category_details cat = .ok ⟨none,
      "https://opentdb.com/api_count.php?category=" ++ toString cat.id,
      ⟨some 10, none, none, none⟩⟩ ∧
    c.global_details = .ok ⟨none, "https://opentdb.com/api_count_global.php",
      ⟨some 10, none, none, none⟩⟩ ∧
    c.new_request ep = .ok ⟨c.token, ep, ⟨some 10, none, none, none⟩⟩ ∧
    c.generateTokenRequest = .ok ⟨c.token,
      "https://opentdb.com/api_token.php?command=request",
      ⟨some 10, none, none, none⟩⟩ ∧
    c.resetTokenRequest = .ok ⟨c.token,
      "https://opentdb.com/api_token.php?command=reset",
      ⟨some 10, none, none, none⟩⟩ ∧
    (Request.prepare ⟨none, ep, ⟨some 10, none, none, none⟩⟩ b).2 =
      b ++ [("amount", "10")] ∧
    (Request.prepare ⟨some t, ep, ⟨some 10, none, none, none⟩⟩ b).2 =
      b ++ [("token", t)] ++ [("amount", "10")] := by
  exact ⟨rfl, rfl, rfl, rfl, rfl, rfl, rfl, rfl⟩

/-- C5: token lifecycle asymmetry.  `generate_token` (an `&self` method)
never modifies the client's stored token and returns the issued token;
`reset_token` on a tokenless client generates a token, stores it and returns
it; `reset_token` on a client holding a token returns the server's token
value and leaves the stored token unchanged. -/
theorem token_lifecycle_asymmetry (c : Client) (resp genResp : Except HttpError TokenRequest)
    (resetResp : Except HttpError ResetToken) (t s : String) :
    (c.generate_token resp).1 = c ∧
    (resp = .ok ⟨t⟩ → (c.generate_token resp).2 = .ok t) ∧
    (c.token = none → genResp = .ok ⟨t⟩ →
      c.reset_token resetResp genResp = (c.set_token t, .ok t)) ∧
    (c.token = some s → resetResp = .ok ⟨t⟩ →
      c.reset_token resetResp genResp = (c, .ok t)) := by
  refine ⟨rfl, ?_, ?_, ?_⟩
  · intro h
    rw [h]
    rfl
  · intro h1 h2
    unfold Client.reset_token
    rw [h1, h2]
    rfl
  · intro h1 h2
    unfold Client.reset_token
    rw [h1, h2]
    rfl

/-- Witness for C5: at concrete clients and server replies, the tokenless
reset stores the generated token, the token-holding reset leaves `"abc"` in
place, and `generate_token` leaves the client untouched. -/
theorem token_lifecycle_asymmetry_witness :
    (Client.mk none).generate_token (.ok ⟨"fresh"⟩) = (⟨none⟩, .ok "fresh") ∧
    (Client.mk none).reset_token (.ok ⟨"r"⟩) (.ok ⟨"fresh"⟩) = (⟨some "fresh"⟩, .ok "fresh") ∧
    (Client.mk (some "abc")).reset_token (.ok ⟨"r"⟩) (.ok ⟨"fresh"⟩) = (⟨some "abc"⟩, .ok "r") := by
  have h1 := (token_lifecycle_asymmetry ⟨none⟩ (.ok ⟨"fresh"⟩) (.ok ⟨"fresh"⟩)
    (.ok ⟨"r"⟩) "fresh" "x")
  have h2 := (token_lifecycle_asymmetry ⟨some "abc"⟩ (.ok ⟨"r"⟩) (.ok ⟨"fresh"⟩)
    (.ok ⟨"r"⟩) "r" "abc")
  exact ⟨by rw [Prod.ext_iff]; exact ⟨h1.1, h1.2.1 rfl⟩,
         h1.2.2.1 rfl rfl, h2.2.2.2 rfl rfl⟩

/-- C3 counterexample: a base64-encoded wire string decoding to the
unrecognized value `"nonsense"` makes `Kind`'s deserializer panic through
`unreachable!()`; no decode error is returned to the caller. -/
theorem kind_unrecognized_is_panic_not_error :
    (Kind.deserialize (base64Encode "nonsense")).isPanicked = true ∧
    (Kind.deserialize (base64Encode "nonsense")).isErr = false := by
  decide

/-- C3 (amended): deserializing a `Difficulty` or `Kind` field from a
base64-encoded wire string that is not one of the recognized values
(easy/medium/hard for `Difficulty`; boolean/multiple for `Kind`) panics via
the `unreachable!()` arm instead of returning a decode error; base64/UTF-8
failures are decode errors; recognized values map to their variants; there is
no default variant for unrecognized wire values. -/
theorem kind_difficulty_unrecognized_panics (wire s : String) (e : DeError) :
    (base64_string wire = .ok s → s ≠ "boolean" → s ≠ "multiple" →
      Kind.deserialize wire = .panicked "internal error: entered unreachable code") ∧
    (base64_string wire = .ok s → s ≠ "easy" → s ≠ "medium" → s ≠ "hard" →
      Difficulty.deserialize wire = .panicked "internal error: entered unreachable code") ∧
    (base64_string wire = .err e →
      Kind.deserialize wire = .err e ∧ Difficulty.deserialize wire = .err e) ∧
    (base64_string wire = .ok "boolean" → Kind.deserialize wire = .ok .TrueOrFalse) ∧
    (base64_string wire = .ok "multiple" → Kind.deserialize wire = .ok .MultipleChoice) ∧
    (base64_string wire = .ok "easy" → Difficulty.deserialize wire = .ok .Easy) ∧
    (base64_string wire = .ok "medium" → Difficulty.deserialize wire = .ok .Medium) ∧
    (base64_string wire = .ok "hard" → Difficulty.deserialize wire = .ok .Hard) := by
  refine ⟨?_, ?_, ?_, ?_, ?_, ?_, ?_, ?_⟩
  · intro h h1 h2
    unfold Kind.deserialize
    rw [h]
    simp [h1, h2]
  · intro h h1 h2 h3
    unfold Difficulty.deserialize
    rw [h]
    simp [h1, h2, h3]
  · intro h
    unfold Kind.deserialize Difficulty.deserialize
    rw [h]
    exact ⟨rfl, rfl⟩
  · intro h
    unfold Kind.deserialize
    rw [h]
    rfl
  · intro h
    unfold Kind.deserialize
    rw [h]
    simp
  · intro h
    unfold Difficulty.deserialize
    rw [h]
    rfl
  · intro h
    unfold Difficulty.deserialize
    rw [h]
    simp
  · intro h
    unfold Difficulty.deserialize
    rw [h]
    simp

/-- Witness for C3: the unrecognized value `"dunno"` (wire `ZHVubm8=`) makes
both deserializers panic, and the recognized `"multiple"` maps to its
variant. -/
theorem kind_difficulty_unrecognized_panics_witness :
    Kind.deserialize (base64Encode "dunno") =
      .panicked "internal error: entered unreachable code" ∧
    Difficulty.deserialize (base64Encode "dunno") =
      .panicked "internal error: entered unreachable code" ∧
    Kind.deserialize (base64Encode "multiple") = .ok .MultipleChoice := by
  have h := kind_difficulty_unrecognized_panics (base64Encode "dunno") "dunno"
    (.custom "unused")
  have h2 := kind_difficulty_unrecognized_panics (base64Encode "multiple") "multiple"
    (.custom "unused")
  exact ⟨h.1 (by decide) (by decide) (by decide),
         h.2.1 (by decide) (by decide) (by decide) (by decide),
         h2.2.2.2.2.1 (by decide)⟩

/-- C4 counterexample: the wire key `0` (outside 9–32) does not make decoding
the categories map fail — the entry is transmuted to `Category::Any` and
inserted, so decoding succeeds with no decode error. -/
theorem category_map_key_zero_not_error :
    CategoryMap.deserialize [(0, ⟨1, 2, 3, 4⟩)] = .ok [(Category.Any, ⟨1, 2, 3, 4⟩)] ∧
    (CategoryMap.deserialize [(0, ⟨1, 2, 3, 4⟩)]).isErr = false := by
  decide

/-- C4 (amended): every numeric key of the global-statistics categories map
is passed unchecked to `transmute::<u8, Category>`: a key that is a valid
discriminant (0 or 9–32) puts the entry under the corresponding variant
(`0` under `Any`), a `u8` key that is no discriminant is undefined behaviour
— not a decode error — and only a key above 255 fails (in `u8`
deserialization, before the transmute). -/
theorem category_map_key_handling (k : Nat) (v : GlobalDetail) :
    (∀ cat : Category, CategoryMap.deserialize [(cat.id, v)] = .ok [(cat, v)]) ∧
    (∀ cat : Category, Category.ofId? cat.id = some cat) ∧
    (k ≤ 255 → Category.ofId? k = none →
      (CategoryMap.deserialize [(k, v)]).isUb = true ∧
      (CategoryMap.deserialize [(k, v)]).isErr = false) ∧
    (255 < k → CategoryMap.deserialize [(k, v)] = .err (.invalidValue k "u8")) := by
  refine ⟨?_, by intro cat; cases cat <;> rfl, ?_, ?_⟩
  · intro cat
    cases cat <;> rfl
  · intro h1 h2
    have e1 : CategoryMap.deserialize [(k, v)] =
        .ub "transmute::<u8, Category> of an invalid discriminant" := by
      unfold CategoryMap.deserialize visitCategoryEntries
      rw [if_neg (by omega), h2]
    rw [e1]
    exact ⟨rfl, rfl⟩
  · intro h
    unfold CategoryMap.deserialize visitCategoryEntries
    rw [if_pos h]

/-- Witness for C4: key 15 files the entry under `VideoGames`; the `u8` key 7
is an unchecked transmute (undefined behaviour), not a decode error; key 300
fails `u8` decoding. -/
theorem category_map_key_handling_witness :
    CategoryMap.deserialize [(15, ⟨1, 2, 3, 4⟩)] =
      .ok [(Category.VideoGames, ⟨1, 2, 3, 4⟩)] ∧
    ((CategoryMap.deserialize [(7, ⟨1, 2, 3, 4⟩)]).isUb = true ∧
     (CategoryMap.deserialize [(7, ⟨1, 2, 3, 4⟩)]).isErr = false) ∧
    CategoryMap.deserialize [(300, ⟨1, 2, 3, 4⟩)] = .err (.invalidValue 300 "u8") :=
  ⟨(category_map_key_handling 7 ⟨1, 2, 3, 4⟩).1 Category.VideoGames,
   (category_map_key_handling 7 ⟨1, 2, 3, 4⟩).2.2.1 (by omega) (by decide),
   (category_map_key_handling 300 ⟨1, 2, 3, 4⟩).2.2.2 (by omega)⟩

/-- C7: for every `Category` variant with id in 9–32, the base64 encoding of
the variant's own `Debug` name decodes back to the same variant; the decoder
strips spaces, strips the colon-delimited prefix, and normalizes `&` to
`And` before matching (shown on the wire names `"Entertainment: Video
Games"` and `"Science & Nature"`); any normalized name matching no variant
decodes to `Category::Any`. -/
theorem category_display_name_roundtrip :
    (∀ c : Category, 9 ≤ c.id → c.id ≤ 32 →
      Category.deserialize (base64Encode c.debugName) = .ok c) ∧
    Category.deserialize (base64Encode "Entertainment: Video Games") =
      .ok .VideoGames ∧
    Category.deserialize (base64Encode "Science & Nature") = .ok .ScienceAndNature ∧
    (∀ (wire : String) (s : String) (cat : List Char),
      base64_string wire = .ok s → categoryNormalize s.data = .ok cat →
      (∀ c ∈ categoryLoopList, c.debugName.data ≠ cat) →
      Category.deserialize wire = .ok Category.Any) := by
  refine ⟨?_, by decide, by decide, ?_⟩
  · intro c h1 h2
    cases c
    · exact absurd h1 (by decide)
    all_goals decide
  · intro wire s cat h1 h2 h3
    have hfind : categoryLoopList.find? (fun c => c.debugName.data == cat) = none := by
      rw [List.find?_eq_none]
      intro x hx
      simpa using h3 x hx
    unfold Category.deserialize
    rw [h1]
    show (categoryNormalize s.data).map categoryLookup = .ok Category.Any
    rw [h2]
    simp [DeResult.map, categoryLookup, hfind]

/-- Witness for C7: the round trip at `VideoGames`, and the unmatched name
`"Cinema"` falling back to `Any`. -/
theorem category_display_name_roundtrip_witness :
    Category.deserialize (base64Encode "VideoGames") = .ok .VideoGames ∧
    Category.deserialize (base64Encode "Cinema") = .ok .Any :=
  ⟨category_display_name_roundtrip.1 .VideoGames (by decide) (by decide),
   category_display_name_roundtrip.2.2.2 (base64Encode "Cinema") "Cinema" "Cinema".data
     (by decide) (by decide) (by decide)⟩
